import Mathlib

/-!
Shallow embedding of the request-handling core of the ProxyServer repository
(`src/proxy/handler.go`, package `proxy`), together with theorems checking the
natural-language specification against it.

Modelling conventions:
* Go `http.Header` (a `map[string][]string` with ordered value lists per key)
  is embedded as a flat ordered association list `List (String × String)` of
  (key, value) pairs; the per-key ordered value list is recovered by `hValues`.
  Keys are assumed already in canonical MIME form, as `net/http` guarantees for
  parsed requests.  `hGet`, `hAdd`, `hSet`, `hDel` embed `Header.Get`,
  `Header.Add`, `Header.Set`, `Header.Del` (`Get` returns the first value, or
  `""` when the key is absent, exactly as `textproto.MIMEHeader.Get` does).
* Go byte slices (request/response bodies, cached blobs) are embedded as
  `String`, since the core never inspects individual bytes.
* `url.URL` is embedded by the three observations the core makes of it:
  `.Scheme`, `.Host`, and the rendered text `url.String()` (field `str`).
* Effectful collaborators (the cache's `Get`, `http.NewRequest` failure,
  `client.Do`) are passed in as explicit data: a cache store and an `Env`
  record holding the outcome of the outbound call.
-/

namespace ProxyServer

/-- Header model: a flat ordered list of (key, value) pairs. -/
abbrev Header := List (String × String)

/-- Embedding of `textproto.MIMEHeader.Get`: first value for the key, `""` if
the key is absent. -/
def hGet (h : Header) (k : String) : String :=
  match h.find? (fun kv => kv.1 == k) with
  | some kv => kv.2
  | none => ""

/-- The ordered list of values stored under key `k`. -/
def hValues (h : Header) (k : String) : List String :=
  (h.filter (fun kv => kv.1 == k)).map (fun kv => kv.2)

/-- Embedding of `Header.Add`: append one value for the key. -/
def hAdd (h : Header) (k v : String) : Header := h ++ [(k, v)]

/-- Embedding of `Header.Set`: replace all values for the key by the one value. -/
def hSet (h : Header) (k v : String) : Header :=
  (h.filter (fun kv => kv.1 != k)) ++ [(k, v)]

/-- Embedding of `Header.Del`: remove all values for the key. -/
def hDel (h : Header) (k : String) : Header :=
  h.filter (fun kv => kv.1 != k)

/-- Auxiliary scan for `goContains`: does `sub` occur as a contiguous block? -/
def containsAux (sub : List Char) : List Char → Bool
  | [] => sub.isPrefixOf []
  | c :: t => sub.isPrefixOf (c :: t) || containsAux sub t

/-- Embedding of Go `strings.Contains s substr`. -/
def goContains (s substr : String) : Bool :=
  containsAux substr.data s.data

/-- Embedding of Go `strings.HasSuffix s suffix`. -/
def goHasSuffix (s suffix : String) : Bool :=
  List.isSuffixOf suffix.data s.data

theorem containsAux_iff (sub : List Char) :
    ∀ s : List Char, containsAux sub s = true ↔ sub <:+: s := by
  intro s
  induction s with
  | nil =>
    simp only [containsAux, List.infix_nil]
    constructor
    · intro h
      exact List.prefix_nil.mp ( List.isPrefixOf_iff_prefix.mp h)
    · intro h
      subst h
      rfl
  | cons c t ih =>
    simp only [containsAux, Bool.or_eq_true, List.infix_cons_iff, ih,
       List.isPrefixOf_iff_prefix]

theorem goContains_iff (s substr : String) :
    goContains s substr = true ↔ substr.data <:+: s.data :=
  containsAux_iff substr.data s.data

theorem goHasSuffix_iff (s suffix : String) :
    goHasSuffix s suffix = true ↔ suffix.data <:+ s.data :=
  List.isSuffixOf_iff_suffix

/-- Embedding of the observations the handler makes of a parsed `url.URL`:
its `.Scheme`, its `.Host`, and the text produced by `url.String()`. -/
structure URL where
  scheme : String
  host : String
  str : String
deriving Repr, DecidableEq

/-- Embedding of the inbound `*http.Request` as observed by the handler. -/
structure Request where
  method : String
  url : URL
  header : Header
  host : String
  remoteAddr : String
  body : String
deriving Repr, DecidableEq

/-- Embedding of the origin's `*http.Response` as observed by the handler:
status code, header, and the outcome of `io.ReadAll(resp.Body)` (`none` models
a body-read error). -/
structure Response where
  statusCode : Nat
  header : Header
  bodyRead : Option String
deriving Repr, DecidableEq

/-- Embedding of `config.Config` as used by the handler. -/
structure Config where
  allowedDomains : List String
  proxyTimeout : Nat
deriving Repr, DecidableEq

/-- The external cache collaborator's store: key ↦ stored blob. -/
abbrev CacheStore := List (String × String)

/-- Embedding of the cache collaborator's `Get(key) -> (value, found)`. -/
def cGet (c : CacheStore) (k : String) : Option String :=
  (c.find? (fun kv => kv.1 == k)).map (fun kv => kv.2)

/-- The cacheable-method map built in `NewProxyHandler`
(`{GET: true, HEAD: true}`, with Go map lookup defaulting to `false`). -/
def cacheables (m : String) : Bool :=
  m == "GET" || m == "HEAD"

/-- Embedding of `isCacheable` (handler.go:157-174). -/
def isCacheable (r : Request) : Bool :=
  if !(cacheables r.method) then
    false
  else if hGet r.header "Authorization" != "" then
    false
  else
    !(goContains (hGet r.header "Cache-Control") "no-store")

/-- Embedding of `isResponseCacheable` (handler.go:176-195). -/
def isResponseCacheable (resp : Response) : Bool :=
  if resp.statusCode != 200 then
    false
  else if goContains (hGet resp.header "Cache-Control") "no-store" then
    false
  else if hGet resp.header "Set-Cookie" != "" then
    false
  else
    true

/-- Embedding of `isDomainAllowed` (handler.go:141-155): empty allow-list
allows everything, otherwise a loop over the configured domains testing
`strings.HasSuffix(host, domain)`. -/
def isDomainAllowed (allowedDomains : List String) (host : String) : Bool :=
  if allowedDomains.length == 0 then
    true
  else
    allowedDomains.any (fun domain => goHasSuffix host domain)

/-- Embedding of `createCacheKey` (handler.go:197-201):
`fmt.Sprintf("%s:%s", r.Method, r.URL.String())`. -/
def createCacheKey (r : Request) : String :=
  r.method ++ ":" ++ r.url.str

/-- Embedding of the redirect policy installed in `NewProxyHandler`
(handler.go:27-33): called with the number of requests already made
(`len(via)`); returns the error (`some msg`) that aborts the call, or `none`
to follow the redirect. -/
def checkRedirect (lenVia : Nat) : Option String :=
  if lenVia ≥ 10 then some "stopped after 10 redirects" else none

/-- A redirect chain in which the origin keeps answering with redirects, `n`
of them in total.  Before the client follows redirect number `k` (1-based) it
runs `checkRedirect` with `via` holding the `k` requests already made (the
initial request plus the `k - 1` redirects already followed); the outbound
call aborts as soon as some `checkRedirect` along the chain returns an error. -/
def redirectChainAborts (n : Nat) : Bool :=
  (List.range' 1 n).any (fun k => (checkRedirect k).isSome)

/-- The header-copy loop of `cloneRequest` (handler.go:216-221): a fresh
header, then `Add key value` for every inbound pair. -/
def copyHeader (h : Header) : Header :=
  h.foldl (fun acc kv => hAdd acc kv.1 kv.2) []

/-- Embedding of the successful path of `cloneRequest` (handler.go:203-230):
same method, URL and body; headers copied verbatim, then `X-Forwarded-For` and
`X-Forwarded-Host` set and `Connection` deleted.  (`http.NewRequest` failure is
modelled separately, by `Env.cloneFails`.) -/
def cloneRequest (r : Request) : Request :=
  let h0 := copyHeader r.header
  let h1 := hSet h0 "X-Forwarded-For" r.remoteAddr
  let h2 := hSet h1 "X-Forwarded-Host" r.host
  let h3 := hDel h2 "Connection"
  { r with header := h3 }

/-- Embedding of `writeCachedHeaders` (handler.go:233-237): a stub that only
sets the placeholder header `X-Cache: HIT` on the empty response header map;
the stored entry is not consulted. -/
def writeCachedHeaders : Header :=
  hSet [] "X-Cache" "HIT"

/-- Embedding of `writeCachedBody` (handler.go:239-243): the stored blob is
written to the client verbatim. -/
def writeCachedBody (response : String) : String :=
  response

/-- Embedding of `cacheResponse` (handler.go:245-249): a stub that only logs
`"Would cache response for ..."`; it returns the list of (key, value) pairs it
submits to the cache collaborator, which is empty — no cache method is called. -/
def cacheResponse (key : String) (resp : Response) (body : String) :
    List (String × String) :=
  []

/-- Outcomes of the effectful collaborators during one request:
whether `http.NewRequest` fails inside `cloneRequest`, and what `client.Do`
returns for the outbound request (`none` models a transport-level error:
network failure, redirect-cap breach, timeout). -/
structure Env where
  cloneFails : Bool
  forward : Request → Option Response

/-- Everything `ServeHTTP` writes to the `http.ResponseWriter`, plus the calls
it makes on its collaborators: the status code written, the response headers,
the body, whether `client.Do` was invoked, the keys passed to `cache.Get`, and
the (key, value) pairs submitted to the cache collaborator for storage. -/
structure ServeResult where
  status : Nat
  headerOut : Header
  bodyOut : String
  forwardCalled : Bool
  cacheGets : List String
  cacheSubmits : List (String × String)
deriving Repr, DecidableEq

/-- The headers `http.Error` sets before writing the error message. -/
def errorHeaders : Header :=
  [("Content-Type", "text/plain; charset=utf-8"),
   ("X-Content-Type-Options", "nosniff")]

/-- Embedding of `http.Error(w, msg, code)` as observed at the client. -/
def httpError (msg : String) (code : Nat) (forwardCalled : Bool)
    (cacheGets : List String) : ServeResult :=
  { status := code
    headerOut := errorHeaders
    bodyOut := msg ++ "\n"
    forwardCalled := forwardCalled
    cacheGets := cacheGets
    cacheSubmits := [] }

/-- Embedding of `ServeHTTP` after the cache-read phase (handler.go:91-139):
clone the request (handler.go:91-96, status 500 on failure), forward it
(handler.go:98-103, status 502 on failure), copy the origin's headers and add
the proxy marker, write the origin's status, read the body (logged-only error
leaves the body truncated), decide the cache write, write the body. -/
def serveMiss (env : Env) (r : Request) (gets : List String) : ServeResult :=
  if env.cloneFails then
    httpError "Error creating proxy request" 500 false gets
  else
    let proxyReq := cloneRequest r
    match env.forward proxyReq with
    | none => httpError "Error forwarding request" 502 true gets
    | some resp =>
      let h1 := copyHeader resp.header
      let h2 := hSet h1 "X-Proxy-Server" "Go-Proxy-Server/1.0"
      match resp.bodyRead with
      | none =>
        { status := resp.statusCode
          headerOut := h2
          bodyOut := ""
          forwardCalled := true
          cacheGets := gets
          cacheSubmits := [] }
      | some body =>
        let submits :=
          if isCacheable r && isResponseCacheable resp then
            cacheResponse (createCacheKey r) resp body
          else
            []
        { status := resp.statusCode
          headerOut := h2
          bodyOut := body
          forwardCalled := true
          cacheGets := gets
          cacheSubmits := submits }

/-- Embedding of `ServeHTTP` (handler.go:51-139): URL-shape validation (400),
domain check (403), cache-read short-circuit (an entry is served with the
`X-Cache: HIT` placeholder header and an implicit 200 from `w.Write`), then
the clone/forward/cache-write path of `serveMiss`. -/
def serveHTTP (cfg : Config) (cache : CacheStore) (env : Env) (r : Request) :
    ServeResult :=
  if r.url.scheme == "" || r.url.host == "" then
    httpError "Invalid proxy request. URL must include scheme and host." 400
      false []
  else if !(isDomainAllowed cfg.allowedDomains r.url.host) then
    httpError "Domain not allowed" 403 false []
  else if isCacheable r then
    let cacheKey := createCacheKey r
    match cGet cache cacheKey with
    | some item =>
      { status := 200
        headerOut := writeCachedHeaders
        bodyOut := writeCachedBody item
        forwardCalled := false
        cacheGets := [cacheKey]
        cacheSubmits := [] }
    | none => serveMiss env r [cacheKey]
  else
    serveMiss env r []

/-- How the cache collaborator's store would evolve given the submissions the
handler makes during one request. -/
def applySubmits (c : CacheStore) (submits : List (String × String)) :
    CacheStore :=
  c ++ submits

/-! ### Concrete demonstration inputs -/

/-- The URL of the spec's end-to-end scenario: `GET http://example.com/a`. -/
def demoURL : URL :=
  { scheme := "http", host := "example.com", str := "http://example.com/a" }

/-- A bare `GET http://example.com/a` request with no headers. -/
def demoRequest : Request :=
  { method := "GET", url := demoURL, header := [], host := "example.com",
    remoteAddr := "203.0.113.5:4242", body := "" }

/-- An origin reply: 200, one `Content-Type` header, no `Set-Cookie`, body
read successfully. -/
def demoResponse : Response :=
  { statusCode := 200, header := [("Content-Type", "text/html")],
    bodyRead := some "hello" }

/-- An environment in which cloning succeeds and the origin always answers
with `demoResponse`. -/
def demoEnv : Env :=
  { cloneFails := false, forward := fun _ => some demoResponse }

/-- A configuration with an empty allow-list. -/
def demoConfig : Config :=
  { allowedDomains := [], proxyTimeout := 30 }

/-- An environment in which cloning succeeds but every outbound call fails at
transport level. -/
def env502 : Env :=
  { cloneFails := false, forward := fun _ => none }

/-- An environment in which `http.NewRequest` fails inside `cloneRequest`. -/
def envCloneFail : Env :=
  { cloneFails := true, forward := fun _ => some demoResponse }

/-- A cache store holding, under the demo request's key, a blob that plainly
encodes a header together with a body. -/
def demoCache : CacheStore :=
  [("GET:http://example.com/a", "Content-Type: text/html\r\n\r\nhello")]

/-- A request with a multi-valued custom header, pre-existing
`X-Forwarded-For` values, and a `Connection` header. -/
def demoRequestHeavy : Request :=
  { method := "GET"
    url := demoURL
    header := [("Accept", "text/html"), ("X-Forwarded-For", "10.0.0.1"),
               ("Accept", "text/plain"), ("Connection", "keep-alive")]
    host := "example.com"
    remoteAddr := "203.0.113.5:4242"
    body := "" }

/-! ### Helper lemmas about the header model -/

theorem goContains_eq_false_iff (s substr : String) :
    goContains s substr = false ↔ ¬ (substr.data <:+: s.data) := by
  rw [← goContains_iff]
  cases goContains s substr <;> simp

theorem copyHeader_eq (h : Header) : copyHeader h = h := by
  have aux : ∀ (l acc : Header),
      l.foldl (fun acc kv => hAdd acc kv.1 kv.2) acc = acc ++ l := by
    intro l
    induction l with
    | nil => intro acc; simp
    | cons x t ih =>
      intro acc
      rw [List.foldl_cons, ih]
      simp [hAdd]
  simpa using aux h []

theorem hValues_append (h h' : Header) (k : String) :
    hValues (h ++ h') k = hValues h k ++ hValues h' k := by
  simp [hValues, List.filter_append]

theorem hValues_filter_ne (h : Header) (k k' : String) (hne : k' ≠ k) :
    hValues (h.filter (fun kv => kv.1 != k)) k' = hValues h k' := by
  unfold hValues
  rw [ List.filter_filter]
  congr 1
  apply List.filter_congr
  intro kv _
  by_cases hx : kv.1 = k'
  · simp [hx, hne]
  · simp [hx]

theorem hValues_filter_self (h : Header) (k : String) :
    hValues (h.filter (fun kv => kv.1 != k)) k = [] := by
  unfold hValues
  rw [ List.filter_filter]
  have hfalse : ∀ kv : String × String, ((kv.1 == k) && (kv.1 != k)) = false := by
    intro kv
    by_cases hx : kv.1 = k <;> simp [hx]
  simp only [hfalse, List.filter_false, List.map_nil]

theorem hValues_singleton_self (k v : String) : hValues [(k, v)] k = [v] := by
  simp [hValues]

theorem hValues_singleton_ne (k k' v : String) (hne : k' ≠ k) :
    hValues [(k, v)] k' = [] := by
  simp [hValues, Ne.symm hne]

theorem hValues_hSet_self (h : Header) (k v : String) :
    hValues (hSet h k v) k = [v] := by
  unfold hSet
  rw [hValues_append, hValues_filter_self, hValues_singleton_self]
  rfl

theorem hValues_hSet_ne (h : Header) (k k' v : String) (hne : k' ≠ k) :
    hValues (hSet h k v) k' = hValues h k' := by
  unfold hSet
  rw [hValues_append, hValues_filter_ne h k k' hne, hValues_singleton_ne k k' v hne]
  simp

theorem hValues_hDel_self (h : Header) (k : String) :
    hValues (hDel h k) k = [] :=
  hValues_filter_self h k

theorem hValues_hDel_ne (h : Header) (k k' : String) (hne : k' ≠ k) :
    hValues (hDel h k) k' = hValues h k' :=
  hValues_filter_ne h k k' hne

/-! ### Helper lemmas about the pipeline -/

theorem serveMiss_cacheSubmits (env : Env) (r : Request) (gets : List String) :
    (serveMiss env r gets).cacheSubmits = [] := by
  unfold serveMiss
  split
  · rfl
  · dsimp only
    split
    · rfl
    · split
      · rfl
      · split <;> rfl

theorem serveHTTP_cacheSubmits (cfg : Config) (cache : CacheStore) (env : Env)
    (r : Request) : (serveHTTP cfg cache env r).cacheSubmits = [] := by
  unfold serveHTTP
  split
  · rfl
  · split
    · rfl
    · split
      · dsimp only
        split
        · rfl
        · exact serveMiss_cacheSubmits env r _
      · exact serveMiss_cacheSubmits env r []

theorem serveMiss_403_forwarded (env : Env) (r : Request) (gets : List String) :
    (serveMiss env r gets).status = 403 → (serveMiss env r gets).forwardCalled = true := by
  unfold serveMiss
  split
  · intro h
    simp [httpError] at h
  · dsimp only
    split
    · intro _; rfl
    · split
      · intro _; rfl
      · split <;> (intro _; rfl)

theorem serveHTTP_reaches_miss (cfg : Config) (cache : CacheStore) (env : Env)
    (r : Request) (hs : r.url.scheme ≠ "") (hh : r.url.host ≠ "")
    (hd : isDomainAllowed cfg.allowedDomains r.url.host = true)
    (hmiss : isCacheable r = false ∨ cGet cache (createCacheKey r) = none) :
    serveHTTP cfg cache env r =
      serveMiss env r (if isCacheable r then [createCacheKey r] else []) := by
  unfold serveHTTP
  have hc1 : (r.url.scheme == "" || r.url.host == "") = false := by
    simp [hs, hh]
  rw [hc1]
  simp only [Bool.false_eq_true, if_false, hd, Bool.not_true]
  cases hcache : isCacheable r with
  | false => simp
  | true =>
    rcases hmiss with hm | hm
    · rw [hcache] at hm
      cases hm
    · simp only [if_true]
      rw [hm]

theorem serveHTTP_hit (cfg : Config) (cache : CacheStore) (env : Env)
    (r : Request) (item : String)
    (hs : r.url.scheme ≠ "") (hh : r.url.host ≠ "")
    (hd : isDomainAllowed cfg.allowedDomains r.url.host = true)
    (hc : isCacheable r = true)
    (hfound : cGet cache (createCacheKey r) = some item) :
    serveHTTP cfg cache env r =
      { status := 200
        headerOut := [("X-Cache", "HIT")]
        bodyOut := item
        forwardCalled := false
        cacheGets := [createCacheKey r]
        cacheSubmits := [] } := by
  unfold serveHTTP
  have hc1 : (r.url.scheme == "" || r.url.host == "") = false := by
    simp [hs, hh]
  rw [hc1]
  simp only [Bool.false_eq_true, if_false, hd, Bool.not_true, hc, if_true]
  rw [hfound]
  rfl

theorem serveMiss_clone_fail (env : Env) (r : Request) (gets : List String)
    (hclone : env.cloneFails = true) :
    serveMiss env r gets = httpError "Error creating proxy request" 500 false gets := by
  unfold serveMiss
  rw [hclone]
  simp

theorem serveMiss_forward_fail (env : Env) (r : Request) (gets : List String)
    (hclone : env.cloneFails = false)
    (hfwd : env.forward (cloneRequest r) = none) :
    serveMiss env r gets = httpError "Error forwarding request" 502 true gets := by
  unfold serveMiss
  rw [hclone]
  simp only [Bool.false_eq_true, if_false]
  rw [hfwd]

theorem isCacheable_eq (r : Request) :
    isCacheable r =
      ((r.method == "GET" || r.method == "HEAD") &&
        (hGet r.header "Authorization" == "") &&
        !(goContains (hGet r.header "Cache-Control") "no-store")) := by
  unfold isCacheable cacheables
  cases h1 : (r.method == "GET" || r.method == "HEAD") <;>
    cases h2 : (hGet r.header "Authorization" == "") <;>
      simp [h1, h2, bne]

theorem isResponseCacheable_eq (resp : Response) :
    isResponseCacheable resp =
      ((resp.statusCode == 200) &&
        !(goContains (hGet resp.header "Cache-Control") "no-store") &&
        (hGet resp.header "Set-Cookie" == "")) := by
  unfold isResponseCacheable
  cases h1 : (resp.statusCode == 200) <;>
    cases h2 : goContains (hGet resp.header "Cache-Control") "no-store" <;>
      cases h3 : (hGet resp.header "Set-Cookie" == "") <;>
        simp [h1, h2, h3, bne]

/-! ### Claim theorems -/

/-- C3: `isDomainAllowed` returns `true` for every host when the allow-list is
empty, so the domain check never produces a 403 in that configuration (any 403
the client then sees was relayed from the origin, i.e. the outbound call was
made); with a non-empty allow-list it returns `true` iff the host ends with at
least one configured suffix under case-sensitive string suffix matching, and a
request whose host fails the check is answered with status 403; with allow-list
`["example.com"]`, host `api.example.com` passes and host `evil.com` fails. -/
theorem isDomainAllowed_spec :
    (∀ host : String, isDomainAllowed [] host = true) ∧
    (∀ (ds : List String) (host : String), ds ≠ [] →
      (isDomainAllowed ds host = true ↔ ∃ d ∈ ds, d.data <:+ host.data)) ∧
    (∀ (cfg : Config) (cache : CacheStore) (env : Env) (r : Request),
      cfg.allowedDomains = [] →
      (serveHTTP cfg cache env r).status = 403 →
      (serveHTTP cfg cache env r).forwardCalled = true) ∧
    (∀ (cfg : Config) (cache : CacheStore) (env : Env) (r : Request),
      r.url.scheme ≠ "" → r.url.host ≠ "" →
      isDomainAllowed cfg.allowedDomains r.url.host = false →
      serveHTTP cfg cache env r = httpError "Domain not allowed" 403 false []) ∧
    isDomainAllowed ["example.com"] "api.example.com" = true ∧
    isDomainAllowed ["example.com"] "evil.com" = false := by
  refine ⟨fun host => rfl, ?_, ?_, ?_, by decide, by decide⟩
  · intro ds host hne
    unfold isDomainAllowed
    have hlen : (ds.length == 0) = false := by
      cases ds with
      | nil => exact absurd rfl hne
      | cons d t => rfl
    rw [hlen]
    simp only [Bool.false_eq_true, if_false, List.any_eq_true]
    constructor
    · rintro ⟨d, hmem, hsuf⟩
      exact ⟨d, hmem, (goHasSuffix_iff host d).mp hsuf⟩
    · rintro ⟨d, hmem, hsuf⟩
      exact ⟨d, hmem, (goHasSuffix_iff host d).mpr hsuf⟩
  · intro cfg cache env r hempty
    unfold serveHTTP
    split
    · intro habs
      simp [httpError] at habs
    · split
      · rename_i hcond
        rw [hempty] at hcond
        simp [isDomainAllowed] at hcond
      · split
        · dsimp only
          split
          · intro habs
            simp at habs
          · exact serveMiss_403_forwarded env r _
        · exact serveMiss_403_forwarded env r []
  · intro cfg cache env r hs hh hforbidden
    unfold serveHTTP
    have hc1 : (r.url.scheme == "" || r.url.host == "") = false := by
      simp [hs, hh]
    rw [hc1]
    simp [hforbidden]

/-- C3 witness: concrete instantiations discharging the hypotheses — the
non-empty allow-list characterization at `["example.com"]`/`api.example.com`,
the no-403-on-empty-allow-list fact, and a concrete 403 rejection of
`evil.com`. -/
theorem isDomainAllowed_spec_witness :
    (isDomainAllowed ["example.com"] "api.example.com" = true ↔
      ∃ d ∈ ["example.com"], d.data <:+ "api.example.com".data) ∧
    ((serveHTTP demoConfig [] demoEnv demoRequest).status = 403 →
      (serveHTTP demoConfig [] demoEnv demoRequest).forwardCalled = true) ∧
    serveHTTP { demoConfig with allowedDomains := ["example.com"] } [] demoEnv
        { demoRequest with url := { scheme := "http", host := "evil.com",
                                    str := "http://evil.com/" } } =
      httpError "Domain not allowed" 403 false [] :=
  ⟨isDomainAllowed_spec.2.1 ["example.com"] "api.example.com" (by decide),
   isDomainAllowed_spec.2.2.1 demoConfig [] demoEnv demoRequest rfl,
   isDomainAllowed_spec.2.2.2.1 { demoConfig with allowedDomains := ["example.com"] }
     [] demoEnv
     { demoRequest with url := { scheme := "http", host := "evil.com",
                                 str := "http://evil.com/" } }
     (by decide) (by decide) (by decide)⟩

/-- C4: `isCacheable` holds iff the method is `GET` or `HEAD`, no
`Authorization` header is present (its value under `Header.Get` is empty), and
the `Cache-Control` request header value does not contain the substring
`no-store`; it is false for every `POST` request regardless of headers and
true for a bare `GET` carrying no headers at all. -/
theorem isCacheable_spec :
    (∀ r : Request,
      isCacheable r = true ↔
        ((r.method = "GET" ∨ r.method = "HEAD") ∧
          hGet r.header "Authorization" = "" ∧
          ¬ ("no-store".data <:+: (hGet r.header "Cache-Control").data))) ∧
    (∀ r : Request, r.method = "POST" → isCacheable r = false) ∧
    (∀ r : Request, r.method = "GET" → r.header = [] → isCacheable r = true) := by
  refine ⟨?_, ?_, ?_⟩
  · intro r
    rw [isCacheable_eq]
    simp only [Bool.and_eq_true, Bool.or_eq_true, beq_iff_eq, Bool.not_eq_true',
      goContains_eq_false_iff, and_assoc]
  · intro r hm
    rw [isCacheable_eq, hm]
    rfl
  · intro r hm hh
    rw [isCacheable_eq, hm, hh]
    rfl

/-- C4 witness: the characterization evaluated at the bare `GET` demo request,
falseness for the same request with method `POST`, and truth for the bare
`GET`. -/
theorem isCacheable_spec_witness :
    (isCacheable demoRequest = true ↔
      ((demoRequest.method = "GET" ∨ demoRequest.method = "HEAD") ∧
        hGet demoRequest.header "Authorization" = "" ∧
        ¬ ("no-store".data <:+: (hGet demoRequest.header "Cache-Control").data))) ∧
    isCacheable { demoRequest with method := "POST" } = false ∧
    isCacheable demoRequest = true :=
  ⟨isCacheable_spec.1 demoRequest,
   isCacheable_spec.2.1 { demoRequest with method := "POST" } rfl,
   isCacheable_spec.2.2 demoRequest rfl rfl⟩

/-- C7: `isResponseCacheable` holds iff the status code is 200, the response
`Cache-Control` header value does not contain the substring `no-store`, and no
`Set-Cookie` header is present (its value under `Header.Get` is empty); it is
false for every non-200 status regardless of headers. -/
theorem isResponseCacheable_spec :
    (∀ resp : Response,
      isResponseCacheable resp = true ↔
        (resp.statusCode = 200 ∧
          ¬ ("no-store".data <:+: (hGet resp.header "Cache-Control").data) ∧
          hGet resp.header "Set-Cookie" = "")) ∧
    (∀ resp : Response, resp.statusCode ≠ 200 → isResponseCacheable resp = false) := by
  constructor
  · intro resp
    rw [isResponseCacheable_eq]
    simp only [Bool.and_eq_true, beq_iff_eq, Bool.not_eq_true',
      goContains_eq_false_iff, and_assoc]
  · intro resp hne
    rw [isResponseCacheable_eq]
    have : (resp.statusCode == 200) = false := by
      simp [hne]
    rw [this]
    rfl

/-- C7 witness: the characterization at the demo 200 response and falseness at
a 404 variant of it. -/
theorem isResponseCacheable_spec_witness :
    (isResponseCacheable demoResponse = true ↔
      (demoResponse.statusCode = 200 ∧
        ¬ ("no-store".data <:+: (hGet demoResponse.header "Cache-Control").data) ∧
        hGet demoResponse.header "Set-Cookie" = "")) ∧
    isResponseCacheable { demoResponse with statusCode := 404 } = false :=
  ⟨isResponseCacheable_spec.1 demoResponse,
   isResponseCacheable_spec.2 { demoResponse with statusCode := 404 } (by decide)⟩

/-- C8: `createCacheKey` is the pure total function sending a request to
`method ++ ":" ++ url.String()` with no normalization; identical
(method, URL-string) pairs give identical keys, and with the URL string fixed a
different method gives a different key, while with the method fixed a different
URL string gives a different key. -/
theorem createCacheKey_spec :
    (∀ r : Request, createCacheKey r = r.method ++ ":" ++ r.url.str) ∧
    (∀ r₁ r₂ : Request, r₁.method = r₂.method → r₁.url.str = r₂.url.str →
      createCacheKey r₁ = createCacheKey r₂) ∧
    (∀ r₁ r₂ : Request, r₁.url.str = r₂.url.str → r₁.method ≠ r₂.method →
      createCacheKey r₁ ≠ createCacheKey r₂) ∧
    (∀ r₁ r₂ : Request, r₁.method = r₂.method → r₁.url.str ≠ r₂.url.str →
      createCacheKey r₁ ≠ createCacheKey r₂) := by
  refine ⟨fun r => rfl, ?_, ?_, ?_⟩
  · intro r₁ r₂ hm hu
    unfold createCacheKey
    rw [hm, hu]
  · intro r₁ r₂ hu hm hkey
    apply hm
    have hd := congrArg String.data hkey
    simp only [createCacheKey, String.data_append, hu] at hd
    exact String.ext (List.append_cancel_right (List.append_cancel_right hd))
  · intro r₁ r₂ hm hu hkey
    apply hu
    have hd := congrArg String.data hkey
    simp only [createCacheKey, String.data_append, hm] at hd
    exact String.ext (List.append_cancel_left hd)

/-- C1: the write path is a stub, so the claim fails on the code.
`cacheResponse` (handler.go:245-249, reached from handler.go:126-132) submits
nothing to the cache collaborator — it only logs — and therefore `ServeHTTP`
never submits anything either; concretely, for `GET http://example.com/a` with
an empty allow-list and empty cache and an origin answering 200 without
`Set-Cookie`, both `isCacheable` and `isResponseCacheable` hold and the
forward succeeds, yet the set of cache submissions is empty, and a second
identical request forwards to the origin again instead of being served from
the cache with the cache-status marker. -/
theorem cacheWrite_stub_spec :
    (∀ (key : String) (resp : Response) (body : String),
      cacheResponse key resp body = []) ∧
    (∀ (cfg : Config) (cache : CacheStore) (env : Env) (r : Request),
      (serveHTTP cfg cache env r).cacheSubmits = []) ∧
    (isCacheable demoRequest = true ∧
      isResponseCacheable demoResponse = true ∧
      createCacheKey demoRequest = "GET:http://example.com/a" ∧
      (serveHTTP demoConfig [] demoEnv demoRequest).status = 200 ∧
      (serveHTTP demoConfig [] demoEnv demoRequest).forwardCalled = true ∧
      (serveHTTP demoConfig
          (applySubmits [] (serveHTTP demoConfig [] demoEnv demoRequest).cacheSubmits)
          demoEnv demoRequest).forwardCalled = true ∧
      hGet (serveHTTP demoConfig
          (applySubmits [] (serveHTTP demoConfig [] demoEnv demoRequest).cacheSubmits)
          demoEnv demoRequest).headerOut "X-Cache" = "") := by
  refine ⟨fun key resp body => rfl, serveHTTP_cacheSubmits, ?_⟩
  decide

/-- C2: on a cache hit the handler returns directly without ever invoking the
forwarder and tags the response with the `X-Cache: HIT` marker, but it does
NOT deserialize the stored entry into response headers: `writeCachedHeaders`
(handler.go:233-237) is a placeholder that sets only `X-Cache: HIT`, so the
emitted header map is that one-entry constant for every stored blob, and
`writeCachedBody` writes the raw blob as the body. -/
theorem cacheHit_placeholder_spec :
    ∀ (cfg : Config) (cache : CacheStore) (env : Env) (r : Request)
      (item : String),
      r.url.scheme ≠ "" → r.url.host ≠ "" →
      isDomainAllowed cfg.allowedDomains r.url.host = true →
      isCacheable r = true →
      cGet cache (createCacheKey r) = some item →
      serveHTTP cfg cache env r =
        { status := 200
          headerOut := [("X-Cache", "HIT")]
          bodyOut := item
          forwardCalled := false
          cacheGets := [createCacheKey r]
          cacheSubmits := [] } :=
  fun cfg cache env r item hs hh hd hc hfound =>
    serveHTTP_hit cfg cache env r item hs hh hd hc hfound

/-- C2 witness: the demo request against a cache whose stored blob plainly
encodes a `Content-Type` header and a body; the served headers are still just
`X-Cache: HIT` and the blob comes back verbatim as the body. -/
theorem cacheHit_placeholder_spec_witness :
    serveHTTP demoConfig demoCache demoEnv demoRequest =
      { status := 200
        headerOut := [("X-Cache", "HIT")]
        bodyOut := "Content-Type: text/html\r\n\r\nhello"
        forwardCalled := false
        cacheGets := ["GET:http://example.com/a"]
        cacheSubmits := [] } :=
  cacheHit_placeholder_spec demoConfig demoCache demoEnv demoRequest
    "Content-Type: text/html\r\n\r\nhello" (by decide) (by decide) rfl rfl rfl

/-- C5: the outbound client's redirect policy errors exactly when ten or more
requests have already been made, so any chain long enough to need an 11th
redirect aborts the call; and whenever the outbound call fails at transport
level (after validation, domain check, cache miss and a successful clone) the
client is answered with status 502 — the forward was attempted. -/
theorem redirectCap_and_forwardFailure_spec :
    (∀ lenVia : Nat, (checkRedirect lenVia).isSome = true ↔ 10 ≤ lenVia) ∧
    (∀ n : Nat, 11 ≤ n → redirectChainAborts n = true) ∧
    (∀ (cfg : Config) (cache : CacheStore) (env : Env) (r : Request),
      r.url.scheme ≠ "" → r.url.host ≠ "" →
      isDomainAllowed cfg.allowedDomains r.url.host = true →
      (isCacheable r = false ∨ cGet cache (createCacheKey r) = none) →
      env.cloneFails = false →
      env.forward (cloneRequest r) = none →
      (serveHTTP cfg cache env r).status = 502 ∧
      (serveHTTP cfg cache env r).forwardCalled = true) := by
  refine ⟨?_, ?_, ?_⟩
  · intro lenVia
    unfold checkRedirect
    split <;> simp_all
  · intro n hn
    unfold redirectChainAborts
    rw [List.any_eq_true]
    refine ⟨10, ?_, rfl⟩
    rw [List.mem_range']
    exact ⟨9, by omega, by omega⟩
  · intro cfg cache env r hs hh hd hmiss hclone hfwd
    rw [serveHTTP_reaches_miss cfg cache env r hs hh hd hmiss,
      serveMiss_forward_fail env r _ hclone hfwd]
    exact ⟨rfl, rfl⟩

/-- C5 witness: the policy at exactly ten prior requests, an 11-redirect
chain, and a concrete transport failure answered with 502. -/
theorem redirectCap_and_forwardFailure_spec_witness :
    ((checkRedirect 10).isSome = true ↔ 10 ≤ 10) ∧
    redirectChainAborts 11 = true ∧
    ((serveHTTP demoConfig [] env502 demoRequest).status = 502 ∧
      (serveHTTP demoConfig [] env502 demoRequest).forwardCalled = true) :=
  ⟨redirectCap_and_forwardFailure_spec.1 10,
   redirectCap_and_forwardFailure_spec.2.1 11 (by decide),
   redirectCap_and_forwardFailure_spec.2.2 demoConfig [] env502 demoRequest
     (by decide) (by decide) rfl (Or.inr rfl) rfl rfl⟩

/-- C6: a request whose target URL lacks a scheme or a host is answered with
status 400, and the whole result is a constant independent of the
configuration, the cache, and the collaborators — so no domain check, no cache
access (`cacheGets = []`), no forward (`forwardCalled = false`) and no cache
write (`cacheSubmits = []`) takes place, regardless of method or headers. -/
theorem invalidRequest_400_spec :
    ∀ (cfg : Config) (cache : CacheStore) (env : Env) (r : Request),
      r.url.scheme = "" ∨ r.url.host = "" →
      serveHTTP cfg cache env r =
        httpError "Invalid proxy request. URL must include scheme and host."
          400 false [] := by
  intro cfg cache env r h
  unfold serveHTTP
  have hc : (r.url.scheme == "" || r.url.host == "") = true := by
    rcases h with h | h <;> simp [h]
  simp [hc]

/-- C6 witness: a schemeless `POST` with headers is answered 400 with no
collaborator interaction. -/
theorem invalidRequest_400_spec_witness :
    serveHTTP demoConfig demoCache envCloneFail
      { demoRequest with
        method := "POST"
        header := [("Authorization", "Bearer x")]
        url := { scheme := "", host := "example.com", str := "//example.com/a" } } =
      httpError "Invalid proxy request. URL must include scheme and host."
        400 false [] :=
  invalidRequest_400_spec demoConfig demoCache envCloneFail
    { demoRequest with
      method := "POST"
      header := [("Authorization", "Bearer x")]
      url := { scheme := "", host := "example.com", str := "//example.com/a" } }
    (Or.inl rfl)

/-- C9: the cloned outbound request's header map keeps, for every inbound key,
exactly the inbound ordered value list, except that `X-Forwarded-For` is set
to the client's observed address and `X-Forwarded-Host` to the original `Host`
value (each overwriting pre-existing values) and `Connection` is removed. -/
theorem cloneRequest_headers_spec :
    ∀ r : Request,
      hValues (cloneRequest r).header "X-Forwarded-For" = [r.remoteAddr] ∧
      hValues (cloneRequest r).header "X-Forwarded-Host" = [r.host] ∧
      hValues (cloneRequest r).header "Connection" = [] ∧
      (∀ k : String, k ≠ "X-Forwarded-For" → k ≠ "X-Forwarded-Host" →
        k ≠ "Connection" →
        hValues (cloneRequest r).header k = hValues r.header k) := by
  intro r
  have hclone : (cloneRequest r).header =
      hDel (hSet (hSet r.header "X-Forwarded-For" r.remoteAddr)
        "X-Forwarded-Host" r.host) "Connection" := by
    simp [cloneRequest, copyHeader_eq]
  rw [hclone]
  refine ⟨?_, ?_, ?_, ?_⟩
  · rw [hValues_hDel_ne _ _ _ (by decide), hValues_hSet_ne _ _ _ _ (by decide),
      hValues_hSet_self]
  · rw [hValues_hDel_ne _ _ _ (by decide), hValues_hSet_self]
  · exact hValues_hDel_self _ _
  · intro k h1 h2 h3
    rw [hValues_hDel_ne _ _ _ h3, hValues_hSet_ne _ _ _ _ h2,
      hValues_hSet_ne _ _ _ _ h1]

/-- C9 witness: a request with a multi-valued custom header, pre-existing
`X-Forwarded-For` values and a `Connection` header, evaluated at a kept key. -/
theorem cloneRequest_headers_spec_witness :
    (hValues (cloneRequest demoRequestHeavy).header "X-Forwarded-For" =
      [demoRequestHeavy.remoteAddr] ∧
     hValues (cloneRequest demoRequestHeavy).header "X-Forwarded-Host" =
      [demoRequestHeavy.host] ∧
     hValues (cloneRequest demoRequestHeavy).header "Connection" = [] ∧
     hValues (cloneRequest demoRequestHeavy).header "Accept" =
      hValues demoRequestHeavy.header "Accept") := by
  have h := cloneRequest_headers_spec demoRequestHeavy
  exact ⟨h.1, h.2.1, h.2.2.1,
    h.2.2.2 "Accept" (by decide) (by decide) (by decide)⟩

/-- C10: if the request passed validation, the domain check and the cache-read
path, and constructing the cloned outbound request fails, the handler answers
with status 500, never invokes the forwarder, and submits nothing to the
cache. -/
theorem cloneFailure_500_spec :
    ∀ (cfg : Config) (cache : CacheStore) (env : Env) (r : Request),
      r.url.scheme ≠ "" → r.url.host ≠ "" →
      isDomainAllowed cfg.allowedDomains r.url.host = true →
      (isCacheable r = false ∨ cGet cache (createCacheKey r) = none) →
      env.cloneFails = true →
      (serveHTTP cfg cache env r).status = 500 ∧
      (serveHTTP cfg cache env r).forwardCalled = false ∧
      (serveHTTP cfg cache env r).cacheSubmits = [] := by
  intro cfg cache env r hs hh hd hmiss hclone
  rw [serveHTTP_reaches_miss cfg cache env r hs hh hd hmiss,
    serveMiss_clone_fail env r _ hclone]
  exact ⟨rfl, rfl, rfl⟩

/-- C10 witness: the demo request in an environment whose outbound-request
construction fails. -/
theorem cloneFailure_500_spec_witness :
    (serveHTTP demoConfig [] envCloneFail demoRequest).status = 500 ∧
    (serveHTTP demoConfig [] envCloneFail demoRequest).forwardCalled = false ∧
    (serveHTTP demoConfig [] envCloneFail demoRequest).cacheSubmits = [] :=
  cloneFailure_500_spec demoConfig [] envCloneFail demoRequest
    (by decide) (by decide) rfl (Or.inr rfl) rfl

/-- C8 witness: determinism and both difference properties at concrete
requests (`GET` vs `HEAD` on the same URL; `/a` vs `/b` under `GET`). -/
theorem createCacheKey_spec_witness :
    createCacheKey demoRequest = createCacheKey demoRequest ∧
    createCacheKey demoRequest ≠
      createCacheKey { demoRequest with method := "HEAD" } ∧
    createCacheKey demoRequest ≠
      createCacheKey { demoRequest with
                       url := { demoURL with str := "http://example.com/b" } } :=
  ⟨createCacheKey_spec.2.1 demoRequest demoRequest rfl rfl,
   createCacheKey_spec.2.2.1 demoRequest { demoRequest with method := "HEAD" }
     rfl (by decide),
   createCacheKey_spec.2.2.2 demoRequest
     { demoRequest with url := { demoURL with str := "http://example.com/b" } }
     rfl (by decide)⟩

end ProxyServer
